import Mathlib

/-!
Shallow embedding of the bismuth-engine rendering core (namespace `engine` in
the C++ source): the pipeline-construction path (`Pipeline.cpp`), the
frame-orchestration loop (`FirstApp.cpp`), and the scene-object model
(`GameObject.hpp`).  GPU handles are modelled as natural numbers, the
filesystem and the graphics driver as explicit environment records, and
`float` values as real numbers.  Each fallible C++ path (`throw`,
`assert`) becomes an `Except` value, and the externally visible calls a
function makes are collected into an explicit event trace.
-/

namespace Engine

/-! ## Pipeline construction (`Pipeline.cpp`) -/

/-- A file on disk: `size` is what `tellg()` reports after opening with
`std::ios::ate`, and `byteAt` gives the byte stored at each offset. -/
structure File where
  size : Nat
  byteAt : Nat → Nat

/-- The filesystem: maps a path to the file stored there, or `none` when the
path cannot be opened. -/
def FS : Type := String → Option File

/-- `Pipeline::readFile`: opens the file at `path`, reads `fileSize = tellg()`
bytes into a buffer of that size and returns the buffer; throws
`std::runtime_error` (modelled as `Except.error` carrying the what-string)
when the file cannot be opened. -/
def readFile (fs : FS) (path : String) : Except String (List Nat) :=
  match fs path with
  | none => Except.error ("Failed to open file \"" ++ path ++ "\"!")
  | some f =>
    let fileSize := f.size
    let buffer := (List.range fileSize).map f.byteAt
    Except.ok buffer

/-- The bytes `readFile` would deliver for a given `File`. -/
def fileBytes (f : File) : List Nat :=
  (List.range f.size).map f.byteAt

/-- The subset of `PipelineConfigInfo` (Pipeline.hpp) that the control flow of
`createGraphicsPipeline` inspects: the external pipeline-layout and
render-pass handles (`none` models `VK_NULL_HANDLE`, which is also their
default) and the subpass index.  The remaining members are fixed-function
Vulkan state records that are copied verbatim into the create-info and never
branch the code. -/
structure PipelineConfigInfo where
  pipelineLayout : Option Nat
  renderPass : Option Nat
  subpass : Nat

/-- The graphics driver as seen by `createGraphicsPipeline`:
`createShaderModule` returns the handle `vkCreateShaderModule` produces for a
given bytecode blob, or `none` when the driver rejects it, and
`createGraphicsPipelines` is the handle `vkCreateGraphicsPipelines` produces,
or `none` on failure. -/
structure Driver where
  createShaderModule : List Nat → Option Nat
  createGraphicsPipelines : Option Nat

/-- The error taxonomy of the pipeline-construction path: a failed `assert`
(precondition violation), a failed file open (IO error), or a rejected GPU
call (device error).  Each carries the source's diagnostic message. -/
inductive PipeError where
  | precondViolation (msg : String)
  | ioError (msg : String)
  | deviceError (msg : String)
  deriving DecidableEq, Repr

/-- Externally visible actions of `createGraphicsPipeline`: reading a shader
file, or making a GPU (Vulkan driver) call of the given name. -/
inductive GpEvent where
  | fileRead (path : String)
  | gpuCall (name : String)
  deriving DecidableEq, Repr

/-- The state a constructed `Pipeline` owns: two shader-module handles and
the graphics-pipeline handle. -/
structure Pipeline where
  graphicsPipeline : Nat
  vertShaderModule : Nat
  fragShaderModule : Nat
  deriving DecidableEq, Repr

/-! ## Scene data (`GameObject.hpp`, `Model.hpp`, the glm value types) -/

/-- A glm 2-component float vector, with floats modelled as reals. -/
structure Vec2 where
  x : ℝ
  y : ℝ

/-- A glm 3-component float vector, with floats modelled as reals. -/
structure Vec3 where
  x : ℝ
  y : ℝ
  z : ℝ

/-- A glm 2x2 float matrix in glm's column-major layout: `c0x c0y` is the
first column, `c1x c1y` the second. -/
structure Mat2 where
  c0x : ℝ
  c0y : ℝ
  c1x : ℝ
  c1y : ℝ

/-- The `SimplePushConstantData` record defined in `FirstApp.cpp` (and
identically in `SimpleRenderSystem.cpp`): a 2x2 transform matrix, a
2-component offset and a 16-byte-aligned color. -/
structure SimplePushConstantData where
  transform : Mat2
  offset : Vec2
  color : Vec3

/-- The state a `Model` owns, per `Model.hpp`: a vertex buffer (identified
here by `modelId`) with its vertex count, and optionally an index buffer with
its index count. -/
structure Model where
  modelId : Nat
  vertexCount : Nat
  hasIndexBuffer : Bool
  indexCount : Nat

/-- A command recorded into a Vulkan command buffer by this rendering core,
at the granularity the frame loop issues them: the pipeline bind emitted by
`Pipeline::bind`, the per-object push-constant write, the mesh-buffer bind
emitted by `Model::bind`, the draw call emitted by `Model::draw` (indexed or
not), and the render-pass/viewport/scissor setup of `recordCommandBuffer`. -/
inductive Cmd where
  | bindPipeline (handle : Nat)
  | pushConstants (data : SimplePushConstantData)
  | bindMesh (modelId : Nat)
  | drawCall (modelId : Nat) (indexed : Bool)
  | beginRenderPass (imageIndex : Nat)
  | setViewport
  | setScissor

/-- `Pipeline::createGraphicsPipeline`: asserts that the layout and render
pass references are non-null, reads both shader files, wraps each blob in a
shader module, and creates the graphics pipeline.  Returns the constructed
`Pipeline` (or the first error) together with the trace of file reads and
GPU calls it performed, in order. -/
def createGraphicsPipeline (fs : FS) (dr : Driver) (vertPath fragPath : String)
    (configInfo : PipelineConfigInfo) : Except PipeError Pipeline × List GpEvent :=
  if configInfo.pipelineLayout = none then
    (Except.error (PipeError.precondViolation
      "Cannot create graphics pipeline: No pipelineLayout provided in configInfo!"), [])
  else if configInfo.renderPass = none then
    (Except.error (PipeError.precondViolation
      "Cannot create graphics pipeline: No renderPass provided in configInfo!"), [])
  else
    match readFile fs vertPath with
    | Except.error m => (Except.error (PipeError.ioError m), [GpEvent.fileRead vertPath])
    | Except.ok vertCode =>
      match readFile fs fragPath with
      | Except.error m =>
        (Except.error (PipeError.ioError m),
         [GpEvent.fileRead vertPath, GpEvent.fileRead fragPath])
      | Except.ok fragCode =>
        match dr.createShaderModule vertCode with
        | none =>
          (Except.error (PipeError.deviceError "Failed to create shader module!"),
           [GpEvent.fileRead vertPath, GpEvent.fileRead fragPath,
            GpEvent.gpuCall "vkCreateShaderModule"])
        | some vertModule =>
          match dr.createShaderModule fragCode with
          | none =>
            (Except.error (PipeError.deviceError "Failed to create shader module!"),
             [GpEvent.fileRead vertPath, GpEvent.fileRead fragPath,
              GpEvent.gpuCall "vkCreateShaderModule", GpEvent.gpuCall "vkCreateShaderModule"])
          | some fragModule =>
            match dr.createGraphicsPipelines with
            | none =>
              (Except.error (PipeError.deviceError "Failed to create graphics pipeline!"),
               [GpEvent.fileRead vertPath, GpEvent.fileRead fragPath,
                GpEvent.gpuCall "vkCreateShaderModule", GpEvent.gpuCall "vkCreateShaderModule",
                GpEvent.gpuCall "vkCreateGraphicsPipelines"])
            | some gp =>
              (Except.ok
                { graphicsPipeline := gp,
                  vertShaderModule := vertModule,
                  fragShaderModule := fragModule },
               [GpEvent.fileRead vertPath, GpEvent.fileRead fragPath,
                GpEvent.gpuCall "vkCreateShaderModule", GpEvent.gpuCall "vkCreateShaderModule",
                GpEvent.gpuCall "vkCreateGraphicsPipelines"])

/-- `Pipeline::bind`: records a single `vkCmdBindPipeline` command at the
graphics bind point into the supplied command buffer and does nothing else. -/
def Pipeline.bind (p : Pipeline) (commandBuffer : List Cmd) : List Cmd :=
  commandBuffer ++ [Cmd.bindPipeline p.graphicsPipeline]

/-! ## Scene objects and the per-object render path
(`GameObject.hpp`, `FirstApp::renderGameObjects`,
`SimpleRenderSystem::renderGameObjects`) -/

/-- Modelled from the spec: the 2D transform component used by
`FirstApp.cpp` (`obj.transform2D`) belongs to an engine snapshot whose header
is not under src/ (the `GameObject.hpp` present is the later 3D snapshot).
Per the spec's data model it holds a translation, a scale and a single scalar
rotation angle. -/
structure Transform2dComponent where
  translation : Vec2
  scale : Vec2
  rotation : ℝ

/-- Modelled from the spec: `Transform2dComponent::mat2` of the 2D snapshot
is not under src/.  Per the spec, the per-object transform matrix is computed
from the rotation and the scale: the 2D rotation matrix composed with the
diagonal scale matrix, in glm's column-major layout. -/
noncomputable def Transform2dComponent.mat2 (t : Transform2dComponent) : Mat2 :=
  let s := Real.sin t.rotation
  let c := Real.cos t.rotation
  { c0x := c * t.scale.x
    c0y := s * t.scale.x
    c1x := -s * t.scale.y
    c1y := c * t.scale.y }

/-- A scene object of the 2D engine snapshot driving `FirstApp`: the
identifier handed out by `createGameObject`, an optional shared mesh
reference, a color, and the 2D transform. -/
structure GameObject where
  id : Nat
  model : Option Model
  color : Vec3
  transform2D : Transform2dComponent

/-- The modulus of the `id_t = unsigned int` counter: unsigned arithmetic in
C++ is defined modulo `2 ^ 32`. -/
def uintMod : Nat := 2 ^ 32

/-- `GameObject::createGameObject`: the function-local static counter
`currentId` (an `unsigned int`, so all values live modulo `2 ^ 32`) is passed
explicitly; the returned object has the current id and default-initialized
members, and the counter is post-incremented with unsigned wraparound. -/
def createGameObject (currentId : Nat) : GameObject × Nat :=
  ({ id := currentId % uintMod
     model := none
     color := { x := 0, y := 0, z := 0 }
     transform2D :=
       { translation := { x := 0, y := 0 }
         scale := { x := 1, y := 1 }
         rotation := 0 } },
   (currentId + 1) % uintMod)

/-- `k` successive calls to `GameObject::createGameObject` starting from
counter value `currentId`, in order. -/
def createGameObjectsFrom : Nat → Nat → List GameObject
  | _, 0 => []
  | currentId, Nat.succ k =>
    let r := createGameObject currentId
    r.1 :: createGameObjectsFrom r.2 k

/-- `glm::mod(x, y) = x - y * floor(x / y)`, over the reals. -/
noncomputable def glmMod (x y : ℝ) : ℝ :=
  x - y * (⌊x / y⌋ : ℝ)

/-- The per-frame update applied to each object at the top of the render
loop: `obj.transform2D.rotation = glm::mod(obj.transform2D.rotation + 0.01f,
glm::two_pi<float>())`. -/
noncomputable def updateGameObject (o : GameObject) : GameObject :=
  { o with
    transform2D :=
      { o.transform2D with
        rotation := glmMod (o.transform2D.rotation + 0.01) (2 * Real.pi) } }

/-- The `SimplePushConstantData` value built for an object inside the render
loop: `push.offset = obj.transform2D.translation; push.color = obj.color;
push.transform = obj.transform2D.mat2()`. -/
noncomputable def pushData (o : GameObject) : SimplePushConstantData :=
  { transform := o.transform2D.mat2
    offset := o.transform2D.translation
    color := o.color }

/-- Modelled from the spec: `Model.cpp` (the bodies of `Model::bind` and
`Model::draw`) is not under src/.  Per the spec, `bind` binds the object's
mesh buffers and `draw` issues an indexed or non-indexed draw depending on
whether the mesh owns an index buffer.  Dereferencing an absent mesh is
undefined behaviour in the source and unreached by the application, which
assigns every object a mesh; it is modelled as recording nothing. -/
def meshCommands : Option Model → List Cmd
  | some m => [Cmd.bindMesh m.modelId, Cmd.drawCall m.modelId m.hasIndexBuffer]
  | none => []

/-- One iteration of the render loop's command recording for an
already-updated object: the push-constant write, then `obj.model->bind`,
then `obj.model->draw`. -/
noncomputable def objectCommands (o : GameObject) : List Cmd :=
  Cmd.pushConstants (pushData o) :: meshCommands o.model

/-- The `for (auto &obj : gameObjects)` loop of `renderGameObjects`: each
object's rotation is advanced in place, then its commands are appended to the
command buffer.  Returns the mutated object list and the final buffer. -/
noncomputable def renderLoop : List GameObject → List Cmd → List GameObject × List Cmd
  | [], commandBuffer => ([], commandBuffer)
  | o :: rest, commandBuffer =>
    let o2 := updateGameObject o
    let r := renderLoop rest (commandBuffer ++ objectCommands o2)
    (o2 :: r.1, r.2)

/-- `FirstApp::renderGameObjects` (identical in
`SimpleRenderSystem::renderGameObjects`): binds the pipeline, then runs the
per-object loop.  Returns the updated object collection and the command
buffer contents. -/
noncomputable def renderGameObjects (pipe : Pipeline) (objs : List GameObject)
    (commandBuffer : List Cmd) : List GameObject × List Cmd :=
  renderLoop objs (Pipeline.bind pipe commandBuffer)

/-- The push-constant records appearing in a command buffer, in order. -/
def pushRecords (cmds : List Cmd) : List SimplePushConstantData :=
  cmds.filterMap (fun c =>
    match c with
    | Cmd.pushConstants d => some d
    | _ => none)

/-- Whether a command is a draw call. -/
def Cmd.isDraw : Cmd → Bool
  | Cmd.drawCall _ _ => true
  | _ => false

/-- Whether a command is a mesh-buffer bind. -/
def Cmd.isBindMesh : Cmd → Bool
  | Cmd.bindMesh _ => true
  | _ => false

/-- Whether a command is a push-constant write. -/
def Cmd.isPush : Cmd → Bool
  | Cmd.pushConstants _ => true
  | _ => false

/-! ## Frame orchestration (`FirstApp::drawFrame`,
`FirstApp::recreateSwapChain`, `FirstApp::createCommandBuffers`) -/

/-- The `VkResult` values the frame loop distinguishes: success, a
suboptimal-surface result, an out-of-date swapchain, and any other
(fatal) error code. -/
inductive VkResult where
  | success
  | suboptimalKHR
  | errorOutOfDateKHR
  | otherError
  deriving DecidableEq, Repr

/-- A `VkExtent2D`. -/
structure Extent where
  width : Nat
  height : Nat
  deriving DecidableEq, Repr

/-- `extent.width == 0 || extent.height == 0`, the degenerate-extent guard of
`recreateSwapChain`. -/
def zeroArea (e : Extent) : Bool :=
  e.width == 0 || e.height == 0

/-- The part of a constructed `SwapChain` the orchestrator observes: the
driver-reported image count and the extent it was built for. -/
structure SwapChain where
  imageCount : Nat
  extent : Extent
  deriving DecidableEq, Repr

/-- The members of `FirstApp` the frame loop reads and writes: the (possibly
not yet constructed) swapchain, the number of command buffers currently
allocated from the pool, the active pipeline, and the scene-object
collection. -/
structure AppState where
  swapChain : Option SwapChain
  commandBuffers : Nat
  pipeline : Pipeline
  gameObjects : List GameObject

/-- The environment one call to `drawFrame` interacts with: the result and
image index `acquireNextImage` returns, the result `submitCommandBuffers`
returns, the window's resize flag, the image count the driver reports for a
newly built chain, the pipeline `createPipeline` produces, and the window
extent reading at each point in time (`glfwWaitEvents` advances time). -/
structure FrameEnv where
  acquireResult : VkResult
  acquireIndex : Nat
  submitResult : VkResult
  windowResized : Bool
  newImageCount : Nat
  newPipeline : Pipeline
  extents : Nat → Extent

/-- The externally visible actions of one `drawFrame` call. -/
inductive FrameEvent where
  | acquireImage
  | recordCommandBuffer (imageIndex : Nat)
  | submitCommandBuffer (imageIndex : Nat)
  | presentImage (imageIndex : Nat)
  | readExtent
  | waitEvents
  | deviceWaitIdle
  | createSwapChain (extent : Extent)
  | freeCommandBuffers
  | allocCommandBuffers (count : Nat)
  | createPipeline
  deriving DecidableEq, Repr

/-- Whether an event is part of the per-frame work the claim about
`OutOfDate` acquisition forbids: acquiring, recording, submitting or
presenting. -/
def FrameEvent.isFrameWork : FrameEvent → Bool
  | FrameEvent.acquireImage => true
  | FrameEvent.recordCommandBuffer _ => true
  | FrameEvent.submitCommandBuffer _ => true
  | FrameEvent.presentImage _ => true
  | _ => false

/-- Whether an event is an image acquisition. -/
def FrameEvent.isAcquire : FrameEvent → Bool
  | FrameEvent.acquireImage => true
  | _ => false

/-- The `while (extent.width == 0 || extent.height == 0)` loop of
`recreateSwapChain`: while the current extent has zero area, re-read the
window extent and pause on `glfwWaitEvents`.  `t` is the current time index
into the environment's extent readings and `fuel` bounds how many iterations
are unrolled; `none` means the loop is still blocked after `fuel`
iterations.  Also returns the trace of reads and waits performed. -/
def extentWaitLoop (extents : Nat → Extent) :
    Nat → Extent → Nat → Option Extent × List FrameEvent
  | 0, e, _ =>
    if zeroArea e then (none, []) else (some e, [])
  | Nat.succ fuel2, e, t =>
    if zeroArea e then
      let r := extentWaitLoop extents fuel2 (extents t) (t + 1)
      (r.1, FrameEvent.readExtent :: FrameEvent.waitEvents :: r.2)
    else
      (some e, [])

/-- `FirstApp::recreateSwapChain`: reads the window extent, blocks while it
has zero area, waits for the device to go idle, rebuilds the swapchain (with
the old chain as stepping stone when one exists, in which case a changed
image count frees and reallocates the command buffers via
`freeCommandBuffers`/`createCommandBuffers`), and finally recreates the
pipeline.  Command-buffer allocation is modelled as succeeding.  Returns
`none` for the state while the extent loop is still blocked. -/
def recreateSwapChain (env : FrameEnv) (s : AppState) (fuel : Nat) :
    Option AppState × List FrameEvent :=
  let e0 := env.extents 0
  let w := extentWaitLoop env.extents fuel e0 0
  match w.1 with
  | none => (none, FrameEvent.readExtent :: w.2)
  | some e =>
    let tr1 := FrameEvent.readExtent :: w.2 ++ [FrameEvent.deviceWaitIdle]
    let chain : SwapChain := { imageCount := env.newImageCount, extent := e }
    match s.swapChain with
    | none =>
      (some { s with swapChain := some chain, pipeline := env.newPipeline },
       tr1 ++ [FrameEvent.createSwapChain e, FrameEvent.createPipeline])
    | some _ =>
      if chain.imageCount ≠ s.commandBuffers then
        (some { s with
                 swapChain := some chain
                 commandBuffers := chain.imageCount
                 pipeline := env.newPipeline },
         tr1 ++ [FrameEvent.createSwapChain e, FrameEvent.freeCommandBuffers,
                 FrameEvent.allocCommandBuffers chain.imageCount, FrameEvent.createPipeline])
      else
        (some { s with swapChain := some chain, pipeline := env.newPipeline },
         tr1 ++ [FrameEvent.createSwapChain e, FrameEvent.createPipeline])

/-- `FirstApp::recordCommandBuffer(imageIndex)`: begins the buffer, begins
the render pass with the fixed clear values, sets viewport and scissor, and
records `renderGameObjects`.  Returns the updated object collection and the
buffer contents. -/
noncomputable def recordCommandBuffer (s : AppState) (imageIndex : Nat) :
    List GameObject × List Cmd :=
  renderGameObjects s.pipeline s.gameObjects
    [Cmd.beginRenderPass imageIndex, Cmd.setViewport, Cmd.setScissor]

/-- The outcome of one `drawFrame` call: a new state, a fatal
`std::runtime_error` (carrying its message), or still blocked inside the
degenerate-extent wait of a recreation. -/
inductive FrameOutcome where
  | ok (s : AppState)
  | fatal (msg : String)
  | blocked

/-- `FirstApp::drawFrame`: acquires an image; on `VK_ERROR_OUT_OF_DATE_KHR`
recreates the swapchain and returns; on any result other than success or
suboptimal throws; otherwise records the command buffer for the acquired
image, submits and presents it, and recreates the swapchain when the
submit/present result is out-of-date or suboptimal or the window was
resized.  Returns the outcome together with the ordered trace of externally
visible actions. -/
noncomputable def drawFrame (env : FrameEnv) (s : AppState) (fuel : Nat) :
    FrameOutcome × List FrameEvent :=
  if env.acquireResult = VkResult.errorOutOfDateKHR then
    let r := recreateSwapChain env s fuel
    (match r.1 with
     | some s2 => FrameOutcome.ok s2
     | none => FrameOutcome.blocked,
     FrameEvent.acquireImage :: r.2)
  else if env.acquireResult ≠ VkResult.success ∧ env.acquireResult ≠ VkResult.suboptimalKHR then
    (FrameOutcome.fatal "Failed to acquire swap chain image!", [FrameEvent.acquireImage])
  else
    let imageIndex := env.acquireIndex
    let rec2 := recordCommandBuffer s imageIndex
    let s1 := { s with gameObjects := rec2.1 }
    let tr2 := [FrameEvent.acquireImage, FrameEvent.recordCommandBuffer imageIndex,
                FrameEvent.submitCommandBuffer imageIndex, FrameEvent.presentImage imageIndex]
    if env.submitResult = VkResult.errorOutOfDateKHR ∨
        env.submitResult = VkResult.suboptimalKHR ∨ env.windowResized = true then
      let r := recreateSwapChain env s1 fuel
      (match r.1 with
       | some s2 => FrameOutcome.ok s2
       | none => FrameOutcome.blocked,
       tr2 ++ r.2)
    else if env.submitResult ≠ VkResult.success then
      (FrameOutcome.fatal "Failed to present swap chain image!", tr2)
    else
      (FrameOutcome.ok s1, tr2)

/-! ## Sample data used by the witnesses -/

/-- A sample shader file: four bytes, each 7. -/
def sampleFile : File := { size := 4, byteAt := fun _ => 7 }

/-- A filesystem on which every path opens to `sampleFile`. -/
def sampleFS : FS := fun _ => some sampleFile

/-- A filesystem on which no path can be opened. -/
def emptyFS : FS := fun _ => none

/-- A driver that accepts every shader module and pipeline. -/
def sampleDriver : Driver :=
  { createShaderModule := fun _ => some 5
    createGraphicsPipelines := some 9 }

/-- A sample constructed pipeline. -/
def samplePipeline : Pipeline :=
  { graphicsPipeline := 9, vertShaderModule := 5, fragShaderModule := 6 }

/-- The triangle mesh of `FirstApp::loadGameObjects`: three vertices, no
index buffer. -/
def triangleModel : Model :=
  { modelId := 0, vertexCount := 3, hasIndexBuffer := false, indexCount := 0 }

/-- The triangle object of `FirstApp::loadGameObjects`: green-ish color,
x-translation 0.2, scale (2, 0.5), rotation a quarter turn. -/
noncomputable def triangleObject : GameObject :=
  { id := 0
    model := some triangleModel
    color := { x := 0.1, y := 0.8, z := 0.1 }
    transform2D :=
      { translation := { x := 0.2, y := 0 }
        scale := { x := 2, y := 0.5 }
        rotation := 0.25 * (2 * Real.pi) } }

/-- A sample swapchain with two images at 800x600. -/
def sampleChain : SwapChain :=
  { imageCount := 2, extent := { width := 800, height := 600 } }

/-- A sample app state holding the sample chain, two command buffers and an
empty scene. -/
def sampleState : AppState :=
  { swapChain := some sampleChain
    commandBuffers := 2
    pipeline := samplePipeline
    gameObjects := [] }

/-- A sample frame environment: acquisition reports out-of-date, the window
extent reads 800x600, and the rebuilt chain reports three images. -/
def sampleEnv : FrameEnv :=
  { acquireResult := VkResult.errorOutOfDateKHR
    acquireIndex := 0
    submitResult := VkResult.success
    windowResized := false
    newImageCount := 3
    newPipeline := samplePipeline
    extents := fun _ => { width := 800, height := 600 } }

/-- The state `recreateSwapChain` produces from `sampleState` under
`sampleEnv`: a fresh three-image chain and three command buffers. -/
def sampleRecreatedState : AppState :=
  { swapChain := some { imageCount := 3, extent := { width := 800, height := 600 } }
    commandBuffers := 3
    pipeline := samplePipeline
    gameObjects := [] }

/-- The trace `recreateSwapChain` produces from `sampleState` under
`sampleEnv`. -/
def sampleRecreateTrace : List FrameEvent :=
  [FrameEvent.readExtent, FrameEvent.deviceWaitIdle,
   FrameEvent.createSwapChain { width := 800, height := 600 },
   FrameEvent.freeCommandBuffers, FrameEvent.allocCommandBuffers 3,
   FrameEvent.createPipeline]

/-- A frame environment whose window reports a zero-width extent forever,
as during minimization. -/
def zeroExtentEnv : FrameEnv :=
  { sampleEnv with extents := fun _ => { width := 0, height := 600 } }

/-! ## C9: scene-object identifiers -/

/-- The ids handed out starting from counter value `c` are
`c % 2^32, (c+1) % 2^32, ...`: the counter advances by one per call and
wraps with unsigned arithmetic. -/
theorem createGameObjectsFrom_map_id (c k : Nat) :
    (createGameObjectsFrom c k).map GameObject.id =
      (List.range k).map (fun i => (c + i) % uintMod) := by
  induction k generalizing c with
  | zero => rfl
  | succ k ih =>
    rw [List.range_succ_eq_map, List.map_cons, List.map_map]
    simp only [createGameObjectsFrom, createGameObject, List.map_cons]
    rw [ih]
    refine List.cons_eq_cons.mpr ⟨by rw [Nat.add_zero], ?_⟩
    apply List.map_congr_left
    intro i _
    show ((c + 1) % uintMod + i) % uintMod = (c + (i + 1)) % uintMod
    rw [Nat.mod_add_mod]
    congr 1
    omega

/-- Counterexample to C9 as stated: the id counter is an `unsigned int` and
wraps modulo `2 ^ 32`, so over `2 ^ 32 + 1` calls the identifiers are not
pairwise distinct — the call after the wrap returns id 0 again. -/
theorem createGameObject_ids_wrap_counterexample :
    ¬ ((createGameObjectsFrom 0 (2 ^ 32 + 1)).map GameObject.id).Nodup := by
  intro hnd
  rw [createGameObjectsFrom_map_id] at hnd
  have hlen : ((List.range (2 ^ 32 + 1)).map (fun i => (0 + i) % uintMod)).length =
      2 ^ 32 + 1 := by simp
  have hi0 : (0 : Nat) < ((List.range (2 ^ 32 + 1)).map
      (fun i => (0 + i) % uintMod)).length := by omega
  have hi1 : (2 ^ 32 : Nat) < ((List.range (2 ^ 32 + 1)).map
      (fun i => (0 + i) % uintMod)).length := by omega
  have hv0 : ((List.range (2 ^ 32 + 1)).map (fun i => (0 + i) % uintMod)).get
      ⟨0, hi0⟩ = 0 := by
    rw [List.get_eq_getElem, List.getElem_map, List.getElem_range]
    show (0 + 0) % (2 ^ 32) = 0
    rw [Nat.add_zero, Nat.zero_mod]
  have hv1 : ((List.range (2 ^ 32 + 1)).map (fun i => (0 + i) % uintMod)).get
      ⟨2 ^ 32, hi1⟩ = 0 := by
    rw [List.get_eq_getElem, List.getElem_map, List.getElem_range]
    show (0 + 2 ^ 32) % (2 ^ 32) = 0
    rw [Nat.zero_add, Nat.mod_self]
  have heq := (List.Nodup.get_inj_iff hnd).mp (hv0.trans hv1.symm)
  have h02 : (0 : Nat) = 2 ^ 32 := congrArg Fin.val heq
  omega

/-- C9 (amended for the unsigned wraparound the source counter has): as long
as the counter has not wrapped — `k ≤ 2 ^ 32` successive calls to
`GameObject::createGameObject` from the initial counter value 0 — the
returned identifiers are `0, 1, ..., k-1` in order, strictly increasing and
pairwise distinct. -/
theorem createGameObject_ids_monotone (k : Nat) (hk : k ≤ 2 ^ 32) :
    (createGameObjectsFrom 0 k).map GameObject.id = List.range k ∧
    List.Pairwise (fun a b => a < b) ((createGameObjectsFrom 0 k).map GameObject.id) ∧
    ((createGameObjectsFrom 0 k).map GameObject.id).Nodup := by
  have h : (createGameObjectsFrom 0 k).map GameObject.id = List.range k := by
    rw [createGameObjectsFrom_map_id]
    have hcongr : ∀ i ∈ List.range k, (0 + i) % uintMod = i := by
      intro i hi
      rw [Nat.zero_add]
      exact Nat.mod_eq_of_lt (lt_of_lt_of_le (List.mem_range.mp hi) hk)
    rw [List.map_congr_left hcongr]
    exact List.map_id _
  refine ⟨h, ?_, ?_⟩
  · rw [h]; exact List.pairwise_lt_range k
  · rw [h]; exact List.nodup_range k

/-- Witness for C9 at three calls. -/
theorem createGameObject_ids_monotone_witness :
    (createGameObjectsFrom 0 3).map GameObject.id = List.range 3 ∧
    List.Pairwise (fun a b => a < b) ((createGameObjectsFrom 0 3).map GameObject.id) ∧
    ((createGameObjectsFrom 0 3).map GameObject.id).Nodup :=
  createGameObject_ids_monotone 3 (by norm_num)

/-! ## C3: null layout / render pass fails before IO and GPU work -/

/-- C3: for every `PipelineConfig` whose pipeline-layout or render-pass
reference is null, pipeline construction fails as a precondition violation
with an empty action trace, so no shader file is read and no GPU call is
attempted. -/
theorem createGraphicsPipeline_null_fails_early (fs : FS) (dr : Driver)
    (vertPath fragPath : String) (configInfo : PipelineConfigInfo)
    (h : configInfo.pipelineLayout = none ∨ configInfo.renderPass = none) :
    (∃ msg, (createGraphicsPipeline fs dr vertPath fragPath configInfo).1 =
      Except.error (PipeError.precondViolation msg)) ∧
    (createGraphicsPipeline fs dr vertPath fragPath configInfo).2 = [] := by
  by_cases hl : configInfo.pipelineLayout = none
  · exact ⟨⟨"Cannot create graphics pipeline: No pipelineLayout provided in configInfo!",
      by simp [createGraphicsPipeline, hl]⟩, by simp [createGraphicsPipeline, hl]⟩
  · have hr : configInfo.renderPass = none := h.resolve_left hl
    exact ⟨⟨"Cannot create graphics pipeline: No renderPass provided in configInfo!",
      by simp [createGraphicsPipeline, hl, hr]⟩, by simp [createGraphicsPipeline, hl, hr]⟩

/-- Witness for C3 at a concrete null-layout configuration. -/
theorem createGraphicsPipeline_null_fails_early_witness :
    (∃ msg, (createGraphicsPipeline sampleFS sampleDriver "v.spv" "f.spv"
      { pipelineLayout := none, renderPass := some 1, subpass := 0 }).1 =
      Except.error (PipeError.precondViolation msg)) ∧
    (createGraphicsPipeline sampleFS sampleDriver "v.spv" "f.spv"
      { pipelineLayout := none, renderPass := some 1, subpass := 0 }).2 = [] :=
  createGraphicsPipeline_null_fails_early sampleFS sampleDriver "v.spv" "f.spv"
    { pipelineLayout := none, renderPass := some 1, subpass := 0 } (Or.inl rfl)

/-! ## C6: shader file reading -/

/-- C6: a shader-bytecode path that cannot be opened makes pipeline
construction fail with an IO error whose message spells out the offending
path (this holds for the vertex path and, when the vertex file opens, for the
fragment path); a path that can be opened makes `readFile` return the file's
full contents, a buffer whose length equals the file size. -/
theorem readFile_full_or_reported_error (fs : FS) (dr : Driver)
    (vertPath fragPath : String) (configInfo : PipelineConfigInfo)
    (hl : configInfo.pipelineLayout ≠ none) (hr : configInfo.renderPass ≠ none) :
    (fs vertPath = none →
      (createGraphicsPipeline fs dr vertPath fragPath configInfo).1 =
        Except.error (PipeError.ioError
          ("Failed to open file \"" ++ vertPath ++ "\"!"))) ∧
    (∀ f, fs vertPath = some f → fs fragPath = none →
      (createGraphicsPipeline fs dr vertPath fragPath configInfo).1 =
        Except.error (PipeError.ioError
          ("Failed to open file \"" ++ fragPath ++ "\"!"))) ∧
    (∀ path f, fs path = some f →
      readFile fs path = Except.ok (fileBytes f) ∧ (fileBytes f).length = f.size) := by
  refine ⟨?_, ?_, ?_⟩
  · intro hnone
    simp [createGraphicsPipeline, readFile, hl, hr, hnone]
  · intro f hsome hnone
    simp [createGraphicsPipeline, readFile, hl, hr, hsome, hnone]
  · intro path f hsome
    constructor
    · simp [readFile, fileBytes, hsome]
    · simp [fileBytes]

/-- Witness for C6 on a filesystem with no openable files and a valid
configuration. -/
theorem readFile_full_or_reported_error_witness :
    ((emptyFS "v.spv" = none →
      (createGraphicsPipeline emptyFS sampleDriver "v.spv" "f.spv"
        { pipelineLayout := some 3, renderPass := some 1, subpass := 0 }).1 =
        Except.error (PipeError.ioError
          ("Failed to open file \"" ++ "v.spv" ++ "\"!"))) ∧
    (∀ f, emptyFS "v.spv" = some f → emptyFS "f.spv" = none →
      (createGraphicsPipeline emptyFS sampleDriver "v.spv" "f.spv"
        { pipelineLayout := some 3, renderPass := some 1, subpass := 0 }).1 =
        Except.error (PipeError.ioError
          ("Failed to open file \"" ++ "f.spv" ++ "\"!"))) ∧
    (∀ path f, emptyFS path = some f →
      readFile emptyFS path = Except.ok (fileBytes f) ∧ (fileBytes f).length = f.size)) ∧
    emptyFS "v.spv" = none :=
  ⟨readFile_full_or_reported_error emptyFS sampleDriver "v.spv" "f.spv"
    { pipelineLayout := some 3, renderPass := some 1, subpass := 0 }
    (by simp) (by simp), rfl⟩

/-! ## C8: valid configuration constructs, bind emits one command -/

/-- C8: with non-null layout and render-pass references, openable shader
files and a driver that accepts the modules and the pipeline, construction
succeeds, and the resulting object's `bind` appends exactly one
pipeline-bind command to the supplied command buffer and nothing else. -/
theorem createGraphicsPipeline_valid_succeeds (fs : FS) (dr : Driver)
    (vertPath fragPath : String) (configInfo : PipelineConfigInfo)
    (fv ff : File) (m1 m2 gp : Nat)
    (hl : configInfo.pipelineLayout ≠ none) (hr : configInfo.renderPass ≠ none)
    (hfv : fs vertPath = some fv) (hff : fs fragPath = some ff)
    (hm1 : dr.createShaderModule (fileBytes fv) = some m1)
    (hm2 : dr.createShaderModule (fileBytes ff) = some m2)
    (hgp : dr.createGraphicsPipelines = some gp) :
    (createGraphicsPipeline fs dr vertPath fragPath configInfo).1 =
      Except.ok { graphicsPipeline := gp, vertShaderModule := m1, fragShaderModule := m2 } ∧
    (∀ p commandBuffer,
      (createGraphicsPipeline fs dr vertPath fragPath configInfo).1 = Except.ok p →
      Pipeline.bind p commandBuffer =
        commandBuffer ++ [Cmd.bindPipeline p.graphicsPipeline]) := by
  have hrf1 : readFile fs vertPath = Except.ok (fileBytes fv) := by
    simp [readFile, fileBytes, hfv]
  have hrf2 : readFile fs fragPath = Except.ok (fileBytes ff) := by
    simp [readFile, fileBytes, hff]
  constructor
  · simp only [createGraphicsPipeline, hrf1, hrf2, hm1, hm2, hgp, if_neg hl, if_neg hr]
  · intro p commandBuffer _
    rfl

/-- Witness for C8 on the sample filesystem and the all-accepting sample
driver. -/
theorem createGraphicsPipeline_valid_succeeds_witness :
    (createGraphicsPipeline sampleFS sampleDriver "v.spv" "f.spv"
      { pipelineLayout := some 3, renderPass := some 1, subpass := 0 }).1 =
      Except.ok { graphicsPipeline := 9, vertShaderModule := 5, fragShaderModule := 5 } ∧
    (∀ p commandBuffer,
      (createGraphicsPipeline sampleFS sampleDriver "v.spv" "f.spv"
        { pipelineLayout := some 3, renderPass := some 1, subpass := 0 }).1 = Except.ok p →
      Pipeline.bind p commandBuffer =
        commandBuffer ++ [Cmd.bindPipeline p.graphicsPipeline]) :=
  createGraphicsPipeline_valid_succeeds sampleFS sampleDriver "v.spv" "f.spv"
    { pipelineLayout := some 3, renderPass := some 1, subpass := 0 }
    sampleFile sampleFile 5 5 9 (by simp) (by simp) rfl rfl rfl rfl rfl

/-! ## The render loop: shared lemmas -/

/-- The render loop updates every object in place and appends, per object in
collection order, that object's command block to the buffer. -/
theorem renderLoop_eq (objs : List GameObject) (commandBuffer : List Cmd) :
    renderLoop objs commandBuffer =
      (objs.map updateGameObject,
       commandBuffer ++ objs.flatMap (fun o => objectCommands (updateGameObject o))) := by
  induction objs generalizing commandBuffer with
  | nil => simp [renderLoop]
  | cons o rest ih => simp [renderLoop, ih]

/-- `renderGameObjects` spelled out via `renderLoop_eq`. -/
theorem renderGameObjects_eq (pipe : Pipeline) (objs : List GameObject)
    (commandBuffer : List Cmd) :
    renderGameObjects pipe objs commandBuffer =
      (objs.map updateGameObject,
       commandBuffer ++ Cmd.bindPipeline pipe.graphicsPipeline ::
         objs.flatMap (fun o => objectCommands (updateGameObject o))) := by
  simp [renderGameObjects, Pipeline.bind, renderLoop_eq]

/-- The rotation advance touches nothing but the rotation. -/
theorem updateGameObject_fields (o : GameObject) :
    (updateGameObject o).model = o.model ∧
    (updateGameObject o).color = o.color ∧
    (updateGameObject o).transform2D.translation = o.transform2D.translation ∧
    (updateGameObject o).transform2D.scale = o.transform2D.scale ∧
    (updateGameObject o).transform2D.rotation =
      glmMod (o.transform2D.rotation + 0.01) (2 * Real.pi) :=
  ⟨rfl, rfl, rfl, rfl, rfl⟩

/-- The push-constant records of one object's command block. -/
theorem pushRecords_objectCommands (o : GameObject) :
    pushRecords (objectCommands o) = [pushData o] := by
  cases h : o.model <;> simp [objectCommands, pushRecords, meshCommands, h]

/-- `pushRecords` distributes over buffer concatenation. -/
theorem pushRecords_append (a b : List Cmd) :
    pushRecords (a ++ b) = pushRecords a ++ pushRecords b := by
  simp [pushRecords]

/-- The push records of the per-object blocks, in collection order. -/
theorem pushRecords_flatMap (objs : List GameObject) :
    pushRecords (objs.flatMap (fun o => objectCommands (updateGameObject o))) =
      objs.map (fun o => pushData (updateGameObject o)) := by
  induction objs with
  | nil => rfl
  | cons o rest ih =>
    simp only [List.flatMap_cons, pushRecords_append, ih,
      pushRecords_objectCommands, List.map_cons]
    rfl

/-! ## C5: no stale reads between the update step and the push record -/

/-- C5: the object collection after a frame's `renderGameObjects` is the
input collection with each rotation advanced, and the push-constant records
appended to the command buffer are, object for object in collection order,
built from exactly those updated objects: the record's offset is the updated
object's translation, its color the object's color, and its transform the
matrix computed by `mat2()` from the just-updated rotation and scale. -/
theorem renderGameObjects_no_stale_reads (pipe : Pipeline) (objs : List GameObject)
    (commandBuffer : List Cmd) :
    (renderGameObjects pipe objs commandBuffer).1 = objs.map updateGameObject ∧
    pushRecords (renderGameObjects pipe objs commandBuffer).2 =
      pushRecords commandBuffer ++
        (renderGameObjects pipe objs commandBuffer).1.map (fun u =>
          { transform := u.transform2D.mat2
            offset := u.transform2D.translation
            color := u.color }) := by
  have hnil : pushRecords [Cmd.bindPipeline pipe.graphicsPipeline] = [] := rfl
  constructor
  · simp [renderGameObjects_eq]
  · rw [renderGameObjects_eq, ← List.singleton_append, pushRecords_append,
      pushRecords_append, pushRecords_flatMap]
    simp only [hnil, List.nil_append, List.map_map]
    rfl

/-! ## C4: one push, one mesh bind, one draw per object -/

/-- One object's command block, when the object owns a mesh: exactly the
push-constant write, the mesh bind, and the draw call, in that order. -/
theorem objectCommands_of_model (o : GameObject) (m : Model) (h : o.model = some m) :
    objectCommands (updateGameObject o) =
      [Cmd.pushConstants (pushData (updateGameObject o)),
       Cmd.bindMesh m.modelId, Cmd.drawCall m.modelId m.hasIndexBuffer] := by
  have hm : (updateGameObject o).model = some m := h
  simp [objectCommands, meshCommands, hm]

/-- Counting over the concatenated per-object blocks: when every block holds
exactly one command satisfying `p`, the total is the object count. -/
theorem countP_flatMap_one (p : Cmd → Bool) :
    ∀ objs : List GameObject,
      (∀ o ∈ objs, ((objectCommands (updateGameObject o)).countP p) = 1) →
      ((objs.flatMap (fun o => objectCommands (updateGameObject o))).countP p) =
        objs.length
  | [], _ => rfl
  | o :: rest, hp => by
    rw [List.flatMap_cons, List.countP_append, hp o (List.mem_cons_self o rest),
      countP_flatMap_one p rest (fun o2 ho2 => hp o2 (List.mem_cons_of_mem o ho2)),
      List.length_cons]
    omega

/-- Per-object command-block counts: one draw, one mesh bind, one push. -/
theorem countP_objectCommands (o : GameObject) (m : Model) (h : o.model = some m) :
    ((objectCommands (updateGameObject o)).countP Cmd.isDraw) = 1 ∧
    ((objectCommands (updateGameObject o)).countP Cmd.isBindMesh) = 1 ∧
    ((objectCommands (updateGameObject o)).countP Cmd.isPush) = 1 := by
  rw [objectCommands_of_model o m h]
  refine ⟨?_, ?_, ?_⟩ <;>
    simp [List.countP_cons, Cmd.isDraw, Cmd.isBindMesh, Cmd.isPush]

/-- C4: in a recorded frame, `renderGameObjects` issues, per scene object in
collection order, exactly one push-constant write followed by exactly one
mesh bind and exactly one draw call; over `k` objects the buffer holds
exactly `k` draw calls (and `k` mesh binds and `k` push writes). -/
theorem renderGameObjects_one_draw_per_object (pipe : Pipeline)
    (objs : List GameObject) (h : ∀ o ∈ objs, o.model.isSome = true) :
    (renderGameObjects pipe objs []).2 =
      Cmd.bindPipeline pipe.graphicsPipeline ::
        objs.flatMap (fun o => objectCommands (updateGameObject o)) ∧
    (∀ o ∈ objs, ∃ m, o.model = some m ∧
      objectCommands (updateGameObject o) =
        [Cmd.pushConstants (pushData (updateGameObject o)),
         Cmd.bindMesh m.modelId, Cmd.drawCall m.modelId m.hasIndexBuffer]) ∧
    ((renderGameObjects pipe objs []).2.countP Cmd.isDraw) = objs.length ∧
    ((renderGameObjects pipe objs []).2.countP Cmd.isBindMesh) = objs.length ∧
    ((renderGameObjects pipe objs []).2.countP Cmd.isPush) = objs.length := by
  have hblock : ∀ o ∈ objs, ∃ m, o.model = some m ∧
      objectCommands (updateGameObject o) =
        [Cmd.pushConstants (pushData (updateGameObject o)),
         Cmd.bindMesh m.modelId, Cmd.drawCall m.modelId m.hasIndexBuffer] := by
    intro o ho
    obtain ⟨m, hm⟩ := Option.isSome_iff_exists.mp (h o ho)
    exact ⟨m, hm, objectCommands_of_model o m hm⟩
  have hbuf : (renderGameObjects pipe objs []).2 =
      Cmd.bindPipeline pipe.graphicsPipeline ::
        objs.flatMap (fun o => objectCommands (updateGameObject o)) := by
    simp [renderGameObjects_eq]
  have hpd : ∀ o ∈ objs, ((objectCommands (updateGameObject o)).countP Cmd.isDraw) = 1 := by
    intro o ho
    obtain ⟨m, hm⟩ := Option.isSome_iff_exists.mp (h o ho)
    exact (countP_objectCommands o m hm).1
  have hpb : ∀ o ∈ objs, ((objectCommands (updateGameObject o)).countP Cmd.isBindMesh) = 1 := by
    intro o ho
    obtain ⟨m, hm⟩ := Option.isSome_iff_exists.mp (h o ho)
    exact (countP_objectCommands o m hm).2.1
  have hpp : ∀ o ∈ objs, ((objectCommands (updateGameObject o)).countP Cmd.isPush) = 1 := by
    intro o ho
    obtain ⟨m, hm⟩ := Option.isSome_iff_exists.mp (h o ho)
    exact (countP_objectCommands o m hm).2.2
  refine ⟨hbuf, hblock, ?_, ?_, ?_⟩
  · rw [hbuf, List.countP_cons, countP_flatMap_one Cmd.isDraw objs hpd]
    simp [Cmd.isDraw]
  · rw [hbuf, List.countP_cons, countP_flatMap_one Cmd.isBindMesh objs hpb]
    simp [Cmd.isBindMesh]
  · rw [hbuf, List.countP_cons, countP_flatMap_one Cmd.isPush objs hpp]
    simp [Cmd.isPush]

/-- Witness for C4: the single-triangle scene issues exactly one draw
call. -/
theorem renderGameObjects_one_draw_per_object_witness :
    ((renderGameObjects samplePipeline [triangleObject] []).2.countP Cmd.isDraw) = 1 :=
  (renderGameObjects_one_draw_per_object samplePipeline [triangleObject]
    (by intro o ho; rw [List.mem_singleton] at ho; subst ho; rfl)).2.2.1

/-! ## C10: the stored rotation stays in [0, 2*pi) -/

/-- `glm::mod` with a positive modulus lands in `[0, y)`. -/
theorem glmMod_nonneg_lt (x y : ℝ) (hy : 0 < y) :
    0 ≤ glmMod x y ∧ glmMod x y < y := by
  have hy0 : y ≠ 0 := ne_of_gt hy
  have h : glmMod x y = y * Int.fract (x / y) := by
    unfold glmMod Int.fract
    rw [mul_sub, mul_div_cancel₀ x hy0]
  constructor
  · rw [h]
    exact mul_nonneg hy.le (Int.fract_nonneg _)
  · rw [h]
    calc y * Int.fract (x / y) < y * 1 :=
          (mul_lt_mul_left hy).mpr (Int.fract_lt_one _)
    _ = y := mul_one y

/-- C10: every object in the collection returned by `renderGameObjects` has
its 2D rotation in `[0, 2*pi)`: the per-frame advance adds 0.01 and wraps
with `glm::mod` modulo `2*pi` (real-number semantics for the `float`
arithmetic). -/
theorem renderGameObjects_rotation_range (pipe : Pipeline) (objs : List GameObject)
    (commandBuffer : List Cmd) (o : GameObject)
    (ho : o ∈ (renderGameObjects pipe objs commandBuffer).1) :
    0 ≤ o.transform2D.rotation ∧ o.transform2D.rotation < 2 * Real.pi := by
  have h1 : (renderGameObjects pipe objs commandBuffer).1 = objs.map updateGameObject := by
    simp [renderGameObjects_eq]
  rw [h1, List.mem_map] at ho
  obtain ⟨o0, _, rfl⟩ := ho
  have h2 : (updateGameObject o0).transform2D.rotation =
      glmMod (o0.transform2D.rotation + 0.01) (2 * Real.pi) := rfl
  rw [h2]
  exact glmMod_nonneg_lt _ _ Real.two_pi_pos

/-- Witness for C10 at the triangle scene. -/
theorem renderGameObjects_rotation_range_witness :
    0 ≤ (updateGameObject triangleObject).transform2D.rotation ∧
    (updateGameObject triangleObject).transform2D.rotation < 2 * Real.pi :=
  renderGameObjects_rotation_range samplePipeline [triangleObject] []
    (updateGameObject triangleObject)
    (by rw [renderGameObjects_eq]; exact List.mem_singleton.mpr rfl)

/-! ## The extent wait loop and recreation: shared lemmas -/

/-- The wait loop performs nothing but extent reads and event waits. -/
theorem extentWaitLoop_events (extents : Nat → Extent) (fuel : Nat) :
    ∀ (e : Extent) (t : Nat) (ev : FrameEvent),
      ev ∈ (extentWaitLoop extents fuel e t).2 →
      ev = FrameEvent.readExtent ∨ ev = FrameEvent.waitEvents := by
  induction fuel with
  | zero =>
    intro e t ev hev
    by_cases h : zeroArea e <;> simp [extentWaitLoop, h] at hev
  | succ fuel2 ih =>
    intro e t ev hev
    by_cases h : zeroArea e
    · simp only [extentWaitLoop, h, if_true, List.mem_cons] at hev
      rcases hev with h1 | h2 | h3
      · exact Or.inl h1
      · exact Or.inr h2
      · exact ih (extents t) (t + 1) ev h3
    · simp [extentWaitLoop, h] at hev

/-- When the wait loop hands back an extent, that extent has non-zero
area. -/
theorem extentWaitLoop_some_nonzero (extents : Nat → Extent) (fuel : Nat) :
    ∀ (e : Extent) (t : Nat) (e2 : Extent),
      (extentWaitLoop extents fuel e t).1 = some e2 → zeroArea e2 = false := by
  induction fuel with
  | zero =>
    intro e t e2 h
    by_cases hz : zeroArea e
    · simp [extentWaitLoop, hz] at h
    · simp [extentWaitLoop, hz] at h
      subst h
      exact Bool.eq_false_iff.mpr hz
  | succ fuel2 ih =>
    intro e t e2 h
    by_cases hz : zeroArea e
    · simp only [extentWaitLoop, hz, if_true] at h
      exact ih (extents t) (t + 1) e2 h
    · simp [extentWaitLoop, hz] at h
      subst h
      exact Bool.eq_false_iff.mpr hz

/-- When every extent reading has zero area, the wait loop never hands back
an extent. -/
theorem extentWaitLoop_all_zero (extents : Nat → Extent)
    (hall : ∀ u, zeroArea (extents u) = true) (fuel : Nat) :
    ∀ (e : Extent) (t : Nat), zeroArea e = true →
      (extentWaitLoop extents fuel e t).1 = none := by
  induction fuel with
  | zero =>
    intro e t hz
    simp [extentWaitLoop, hz]
  | succ fuel2 ih =>
    intro e t hz
    simp only [extentWaitLoop, hz, if_true]
    exact ih (extents t) (t + 1) (hall t)

/-- Every action of `recreateSwapChain` is recreation work, never per-frame
work (no acquisition, recording, submission or presentation). -/
theorem recreateSwapChain_events (env : FrameEnv) (s : AppState) (fuel : Nat) :
    ∀ ev ∈ (recreateSwapChain env s fuel).2, ev.isFrameWork = false := by
  intro ev hev
  have hwtr : ∀ ev2 ∈ (extentWaitLoop env.extents fuel (env.extents 0) 0).2,
      FrameEvent.isFrameWork ev2 = false := by
    intro ev2 h2
    rcases extentWaitLoop_events env.extents fuel (env.extents 0) 0 ev2 h2 with h | h <;>
      subst h <;> rfl
  simp only [recreateSwapChain] at hev
  rcases hw : extentWaitLoop env.extents fuel (env.extents 0) 0 with ⟨r, wtr⟩
  rw [hw] at hev hwtr
  dsimp only at hev hwtr
  cases r with
  | none =>
    simp only [List.mem_cons] at hev
    rcases hev with h | h
    · subst h; rfl
    · exact hwtr ev h
  | some e =>
    cases hsc : s.swapChain with
    | none =>
      rw [hsc] at hev
      dsimp only at hev
      simp at hev
      rcases hev with h | h | h | h | h
      · subst h; rfl
      · exact hwtr ev h
      · subst h; rfl
      · subst h; rfl
      · subst h; rfl
    | some c =>
      rw [hsc] at hev
      dsimp only at hev
      by_cases hne : env.newImageCount ≠ s.commandBuffers
      · rw [if_pos hne] at hev
        simp at hev
        rcases hev with h | h | h | h | h | h | h
        · subst h; rfl
        · exact hwtr ev h
        · subst h; rfl
        · subst h; rfl
        · subst h; rfl
        · subst h; rfl
        · subst h; rfl
      · rw [if_neg hne] at hev
        simp at hev
        rcases hev with h | h | h | h | h
        · subst h; rfl
        · exact hwtr ev h
        · subst h; rfl
        · subst h; rfl
        · subst h; rfl

/-- When recreation completes, a fresh chain was constructed for a
non-zero-area extent, the construction appears in the trace, and the new
state stores that chain. -/
theorem recreateSwapChain_some (env : FrameEnv) (s : AppState) (fuel : Nat)
    (s2 : AppState) (tr : List FrameEvent)
    (h : recreateSwapChain env s fuel = (some s2, tr)) :
    ∃ e, zeroArea e = false ∧
      s2.swapChain = some { imageCount := env.newImageCount, extent := e } ∧
      FrameEvent.createSwapChain e ∈ tr := by
  simp only [recreateSwapChain] at h
  rcases hw : extentWaitLoop env.extents fuel (env.extents 0) 0 with ⟨r, wtr⟩
  rw [hw] at h
  dsimp only at h
  cases r with
  | none => simp at h
  | some e =>
    have hz2 : zeroArea e = false :=
      extentWaitLoop_some_nonzero env.extents fuel (env.extents 0) 0 e (by rw [hw])
    refine ⟨e, hz2, ?_⟩
    cases hsc : s.swapChain with
    | none =>
      rw [hsc] at h
      dsimp only at h
      simp only [Prod.mk.injEq, Option.some.injEq] at h
      obtain ⟨hs2, htr⟩ := h
      subst hs2
      subst htr
      constructor
      · rfl
      · simp
    | some c =>
      rw [hsc] at h
      dsimp only at h
      by_cases hne : env.newImageCount ≠ s.commandBuffers
      · rw [if_pos hne] at h
        simp only [Prod.mk.injEq, Option.some.injEq] at h
        obtain ⟨hs2, htr⟩ := h
        subst hs2
        subst htr
        constructor
        · rfl
        · simp
      · rw [if_neg hne] at h
        simp only [Prod.mk.injEq, Option.some.injEq] at h
        obtain ⟨hs2, htr⟩ := h
        subst hs2
        subst htr
        constructor
        · rfl
        · simp

/-! ## C2: command-buffer count after recreation -/

/-- C2: after recreating an already-initialized swapchain, the number of
allocated command buffers equals the new chain's image count; when the new
image count differs from the old command-buffer count, the buffers are freed
and reallocated to the new count. -/
theorem recreateSwapChain_commandBuffers_match (env : FrameEnv) (s : AppState)
    (fuel : Nat) (s2 : AppState) (tr : List FrameEvent)
    (hchain : s.swapChain.isSome = true)
    (hr : recreateSwapChain env s fuel = (some s2, tr)) :
    (∃ c, s2.swapChain = some c ∧ s2.commandBuffers = c.imageCount ∧
      c.imageCount = env.newImageCount) ∧
    (env.newImageCount ≠ s.commandBuffers →
      FrameEvent.freeCommandBuffers ∈ tr ∧
      FrameEvent.allocCommandBuffers env.newImageCount ∈ tr) := by
  obtain ⟨c0, hc0⟩ := Option.isSome_iff_exists.mp hchain
  simp only [recreateSwapChain] at hr
  rcases hw : extentWaitLoop env.extents fuel (env.extents 0) 0 with ⟨r, wtr⟩
  rw [hw] at hr
  dsimp only at hr
  cases r with
  | none => simp at hr
  | some e =>
    rw [hc0] at hr
    dsimp only at hr
    by_cases hne : env.newImageCount ≠ s.commandBuffers
    · rw [if_pos hne] at hr
      simp only [Prod.mk.injEq, Option.some.injEq] at hr
      obtain ⟨hs2, htr⟩ := hr
      subst hs2
      subst htr
      refine ⟨⟨{ imageCount := env.newImageCount, extent := e }, rfl, rfl, rfl⟩, ?_⟩
      intro _
      constructor <;> simp
    · rw [if_neg hne] at hr
      have heq : env.newImageCount = s.commandBuffers := not_ne_iff.mp hne
      simp only [Prod.mk.injEq, Option.some.injEq] at hr
      obtain ⟨hs2, htr⟩ := hr
      subst hs2
      subst htr
      refine ⟨⟨{ imageCount := env.newImageCount, extent := e }, rfl, heq.symm, rfl⟩, ?_⟩
      intro hcon
      exact absurd hcon hne

/-- Witness for C2: recreating the sample two-buffer state against a driver
now reporting three images leaves three command buffers. -/
theorem recreateSwapChain_commandBuffers_match_witness :
    (∃ c, sampleRecreatedState.swapChain = some c ∧
      sampleRecreatedState.commandBuffers = c.imageCount ∧
      c.imageCount = sampleEnv.newImageCount) ∧
    (sampleEnv.newImageCount ≠ sampleState.commandBuffers →
      FrameEvent.freeCommandBuffers ∈ sampleRecreateTrace ∧
      FrameEvent.allocCommandBuffers sampleEnv.newImageCount ∈ sampleRecreateTrace) :=
  recreateSwapChain_commandBuffers_match sampleEnv sampleState 1
    sampleRecreatedState sampleRecreateTrace rfl rfl

/-! ## C7: zero-area extents block recreation -/

/-- C7: while the window extent has zero width or height, `recreateSwapChain`
does not proceed: it only re-reads the extent and waits on events, performing
neither the device-idle wait nor chain construction; and whenever recreation
does complete, the chain it constructed was built for an extent with positive
width and height. -/
theorem recreateSwapChain_zero_extent_blocks (env : FrameEnv) (s : AppState)
    (fuel : Nat) :
    ((∀ t, zeroArea (env.extents t) = true) →
      (recreateSwapChain env s fuel).1 = none ∧
      (∀ ev ∈ (recreateSwapChain env s fuel).2,
        ev = FrameEvent.readExtent ∨ ev = FrameEvent.waitEvents)) ∧
    (∀ s2 tr, recreateSwapChain env s fuel = (some s2, tr) →
      ∃ c, s2.swapChain = some c ∧ 0 < c.extent.width ∧ 0 < c.extent.height) := by
  constructor
  · intro hall
    have hnone : (extentWaitLoop env.extents fuel (env.extents 0) 0).1 = none :=
      extentWaitLoop_all_zero env.extents hall fuel (env.extents 0) 0 (hall 0)
    rcases hw : extentWaitLoop env.extents fuel (env.extents 0) 0 with ⟨r, wtr⟩
    rw [hw] at hnone
    dsimp only at hnone
    subst hnone
    have hre : recreateSwapChain env s fuel = (none, FrameEvent.readExtent :: wtr) := by
      simp only [recreateSwapChain, hw]
    rw [hre]
    constructor
    · rfl
    · intro ev hev
      rcases List.mem_cons.mp hev with h | h
      · exact Or.inl h
      · exact extentWaitLoop_events env.extents fuel (env.extents 0) 0 ev
          (by rw [hw]; exact h)
  · intro s2 tr hr
    obtain ⟨e, hz, hsc, _⟩ := recreateSwapChain_some env s fuel s2 tr hr
    simp only [zeroArea, Bool.or_eq_false_iff, beq_eq_false_iff_ne] at hz
    exact ⟨{ imageCount := env.newImageCount, extent := e }, hsc,
      Nat.pos_of_ne_zero hz.1, Nat.pos_of_ne_zero hz.2⟩

/-- Witness for C7: under a window stuck at width 0, recreation stays
blocked and its trace holds only extent reads and event waits. -/
theorem recreateSwapChain_zero_extent_blocks_witness :
    (recreateSwapChain zeroExtentEnv sampleState 2).1 = none ∧
    (∀ ev ∈ (recreateSwapChain zeroExtentEnv sampleState 2).2,
      ev = FrameEvent.readExtent ∨ ev = FrameEvent.waitEvents) :=
  (recreateSwapChain_zero_extent_blocks zeroExtentEnv sampleState 2).1 (fun _ => rfl)

/-! ## C1: an out-of-date acquisition skips the frame and recreates -/

/-- C1: when acquisition reports `VK_ERROR_OUT_OF_DATE_KHR`, `drawFrame`
performs no command-buffer recording, no submission and no presentation; its
trace holds exactly the one acquisition; and whenever the call completes, a
fresh swapchain was constructed within this same call — before the next
frame's acquisition — and is stored in the resulting state. -/
theorem drawFrame_outOfDate_skips (env : FrameEnv) (s : AppState) (fuel : Nat)
    (hacq : env.acquireResult = VkResult.errorOutOfDateKHR) :
    (∀ i, FrameEvent.recordCommandBuffer i ∉ (drawFrame env s fuel).2) ∧
    (∀ i, FrameEvent.submitCommandBuffer i ∉ (drawFrame env s fuel).2) ∧
    (∀ i, FrameEvent.presentImage i ∉ (drawFrame env s fuel).2) ∧
    ((drawFrame env s fuel).2.countP FrameEvent.isAcquire) = 1 ∧
    (∀ s2, (drawFrame env s fuel).1 = FrameOutcome.ok s2 →
      ∃ e, FrameEvent.createSwapChain e ∈ (drawFrame env s fuel).2 ∧
        s2.swapChain = some { imageCount := env.newImageCount, extent := e }) := by
  have htr : (drawFrame env s fuel).2 =
      FrameEvent.acquireImage :: (recreateSwapChain env s fuel).2 := by
    simp [drawFrame, hacq]
  have hout : (drawFrame env s fuel).1 =
      (match (recreateSwapChain env s fuel).1 with
       | some s2 => FrameOutcome.ok s2
       | none => FrameOutcome.blocked) := by
    simp [drawFrame, hacq]
  have hsafe := recreateSwapChain_events env s fuel
  refine ⟨?_, ?_, ?_, ?_, ?_⟩
  · intro i hmem
    rw [htr] at hmem
    rcases List.mem_cons.mp hmem with h | h
    · exact FrameEvent.noConfusion h
    · have hf := hsafe _ h
      simp [FrameEvent.isFrameWork] at hf
  · intro i hmem
    rw [htr] at hmem
    rcases List.mem_cons.mp hmem with h | h
    · exact FrameEvent.noConfusion h
    · have hf := hsafe _ h
      simp [FrameEvent.isFrameWork] at hf
  · intro i hmem
    rw [htr] at hmem
    rcases List.mem_cons.mp hmem with h | h
    · exact FrameEvent.noConfusion h
    · have hf := hsafe _ h
      simp [FrameEvent.isFrameWork] at hf
  · rw [htr, List.countP_cons]
    have hz : (recreateSwapChain env s fuel).2.countP FrameEvent.isAcquire = 0 := by
      rw [List.countP_eq_zero]
      intro a ha
      have hf := hsafe a ha
      cases a <;> simp_all [FrameEvent.isAcquire, FrameEvent.isFrameWork]
    rw [hz]
    rfl
  · intro s2 hok
    rw [hout] at hok
    cases hrc : (recreateSwapChain env s fuel).1 with
    | none =>
      rw [hrc] at hok
      exact FrameOutcome.noConfusion hok
    | some s3 =>
      rw [hrc] at hok
      simp only [FrameOutcome.ok.injEq] at hok
      rw [← hok]
      have hpair : recreateSwapChain env s fuel =
          (some s3, (recreateSwapChain env s fuel).2) := by
        rw [← hrc]
      obtain ⟨e, _, hsc, hmem⟩ :=
        recreateSwapChain_some env s fuel s3 (recreateSwapChain env s fuel).2 hpair
      exact ⟨e, by rw [htr]; exact List.mem_cons_of_mem _ hmem, hsc⟩

/-- Witness for C1: the sample out-of-date environment yields a trace with
exactly one acquisition. -/
theorem drawFrame_outOfDate_skips_witness :
    ((drawFrame sampleEnv sampleState 1).2.countP FrameEvent.isAcquire) = 1 :=
  (drawFrame_outOfDate_skips sampleEnv sampleState 1 rfl).2.2.2.1

end Engine
